import Mathlib

/-!
Verification of the generic tabular record store of the rocdashboard
inventory backend, as implemented by `backend/services/tool_service.py`
and `backend/services/baby_part_service.py`.

The development shallowly embeds the Python code: Python scalar values
become the inductive `CsvVal`, Python dicts become association lists,
pandas dataframes become lists of row structures, fallible code returns
`Except`, and file system effects are made explicit through a small
`FileState` record.  Functions named after Python methods are direct
translations of the corresponding source; functions whose doc comment
starts with "Modelled from the spec" stand for code of the repository
that is not part of the provided sources (the `BaseService` class) and
follow the natural language specification instead.
-/

/-- Single quote character, used when building the message strings of the
Python source, which quote file paths and keys. -/
def sqc : String := String.singleton (Char.ofNat 39)

/-- Model of a Python scalar value as it appears in a pandas cell or in a
JSON request payload: `vNone` is Python `None`, `vNaN` is the pandas float
`NaN`, and numbers are split into ints and (finite) floats, the latter
modelled as rationals. -/
inductive CsvVal where
  | vNone
  | vNaN
  | vStr (s : String)
  | vInt (n : Int)
  | vFloat (q : Rat)
deriving DecidableEq

/-- Python exceptions that the numeric parsing chain can raise:
`float(...)` raises ValueError on unparsable text, `int(...)` raises
ValueError on NaN and OverflowError on an infinity. -/
inductive PyExn where
  | valueError
  | typeError
  | overflowError
deriving DecidableEq

/-- Model of `pd.isna` on scalars: true exactly for `None` and `NaN`. -/
def pyIsNa : CsvVal → Bool
  | .vNone => true
  | .vNaN => true
  | _ => false

/-- Model of the Python comparison `value == ''`: only the empty string
compares equal to the empty string; numbers, None and NaN do not. -/
def pyEqEmptyStr : CsvVal → Bool
  | .vStr s => s == ""
  | _ => false

/-- Model of Python truthiness (`bool(value)`): None and empty strings and
zero numbers are falsy; NaN is truthy. -/
def pyTruthy : CsvVal → Bool
  | .vNone => false
  | .vNaN => true
  | .vStr s => s ≠ ""
  | .vInt n => n ≠ 0
  | .vFloat q => q ≠ 0

/-- Decimal rendering of a float whose value is integral, matching the
Python `str` of such a float (for example `str(5.0) = "5.0"`).  Floats
with a fractional part are rendered through their reduced fraction; this
placeholder never feeds a theorem of this development, every string that
a claim evaluates goes through integral or string cells only. -/
def floatRepr (q : Rat) : String :=
  if q.den = 1 then toString q.num ++ ".0"
  else toString q.num ++ "/" ++ toString q.den

/-- Model of Python `str(value)` on the scalar model: `str(None) = "None"`
and `str(float("nan")) = "nan"`. -/
def pyStrOfVal : CsvVal → String
  | .vNone => "None"
  | .vNaN => "nan"
  | .vStr s => s
  | .vInt n => toString n
  | .vFloat q => floatRepr q

/-- Model of Python `str.strip()`: drop whitespace from both ends.  The
source only ever strips ASCII whitespace in practice; `Char.isWhitespace`
covers space, tab and line breaks. -/
def stripChars (l : List Char) : List Char :=
  ((l.dropWhile Char.isWhitespace).reverse.dropWhile Char.isWhitespace).reverse

/-- String level wrapper of `stripChars`. -/
def pyStrip (s : String) : String :=
  ⟨stripChars s.data⟩

/-- Model of Python `str.lower()` via the character case map. -/
def pyLower (s : String) : String :=
  ⟨s.data.map Char.toLower⟩

/-- Boolean test that `pat` occurs in `s` starting at its head. -/
def charsStartWith (s pat : List Char) : Bool :=
  match pat with
  | [] => true
  | p :: ps =>
      match s with
      | [] => false
      | c :: cs => c == p && charsStartWith cs ps

/-- Boolean test that `pat` occurs somewhere inside `s`. -/
def charsContain (pat : List Char) : List Char → Bool
  | [] => pat.isEmpty
  | c :: cs => charsStartWith (c :: cs) pat || charsContain pat cs

/-- Model of the Python containment test `pat in s` on strings. -/
def containsSub (s pat : String) : Bool :=
  charsContain pat.data s.data

/-- Python dictionary with string keys, as an association list; the first
binding of a key wins, like repeated literal keys would not occur in the
source payloads. -/
abbrev PyDict : Type := List (String × CsvVal)

/-- Model of `d.get(k)`: Python returns `None` when the key is absent. -/
def pyGet (d : PyDict) (k : String) : CsvVal :=
  match d.find? (fun kv => kv.1 == k) with
  | some kv => kv.2
  | none => .vNone

/-- Model of `d.get(k, dflt)`. -/
def pyGetD (d : PyDict) (k : String) (dflt : CsvVal) : CsvVal :=
  match d.find? (fun kv => kv.1 == k) with
  | some kv => kv.2
  | none => dflt

/-- Model of the Python expression `a or b`: the first operand when it is
truthy, else the second. -/
def pyOr (a b : CsvVal) : CsvVal :=
  if pyTruthy a then a else b

/-- Result of Python `float(...)` on a string: a finite value, one of the
two infinities, or NaN.  A finite value is kept in the scaled integer
form `m * 10 ^ scale`, which the decimal literal grammar produces
directly and which truncation consumes without rational arithmetic. -/
inductive PyFloat where
  | finite (m : Int) (scale : Int)
  | inf
  | negInf
  | nan
deriving DecidableEq

/-- Numeric value of a list of decimal digit characters. -/
def digitsToNat (l : List Char) : Nat :=
  l.foldl (fun acc c => acc * 10 + (c.toNat - 48)) 0

/-- All characters are decimal digits and there is at least one. -/
def allDigits (l : List Char) : Bool :=
  !l.isEmpty && l.all Char.isDigit

/-- Parse the mantissa of a decimal literal: digits with at most one
decimal point and at least one digit overall, as Python `float` accepts
`"123"`, `"123."` and `".5"`.  Returns the digit value together with the
number of fractional digits. -/
def parseMantissa (l : List Char) : Option (Int × Nat) :=
  match l.splitOn '.' with
  | [ip] =>
      if allDigits ip then some ((digitsToNat ip : Int), 0) else none
  | [ip, fp] =>
      if (ip.all Char.isDigit && fp.all Char.isDigit) && !(ip.isEmpty && fp.isEmpty) then
        some ((digitsToNat (ip ++ fp) : Int), fp.length)
      else none
  | _ => none

/-- Parse an optionally signed exponent: digits after `e`. -/
def parseExponent (l : List Char) : Option Int :=
  match l with
  | '+' :: rest => if allDigits rest then some (digitsToNat rest : Int) else none
  | '-' :: rest => if allDigits rest then some (-(digitsToNat rest : Int)) else none
  | rest => if allDigits rest then some (digitsToNat rest : Int) else none

/-- Parse an unsigned decimal literal with optional exponent part into
scaled integer form. -/
def parseUnsigned (l : List Char) : Option (Int × Int) :=
  match l.splitOn 'e' with
  | [m] => (parseMantissa m).map (fun p => (p.1, -(p.2 : Int)))
  | [m, e] =>
      match parseMantissa m, parseExponent e with
      | some p, some ex => some (p.1, ex - (p.2 : Int))
      | _, _ => none
  | _ => none

/-- Parse a signed decimal literal into scaled integer form. -/
def parseSigned (l : List Char) : Option (Int × Int) :=
  match l with
  | '+' :: rest => parseUnsigned rest
  | '-' :: rest => (parseUnsigned rest).map (fun p => (-p.1, p.2))
  | rest => parseUnsigned rest

/-- Model of Python `float(s)` on a string: strips whitespace, is case
insensitive, accepts `inf`, `infinity` and `nan` with optional sign, else
a decimal literal with optional fraction and exponent.  `none` models the
ValueError that Python raises on unparsable text.  Underscored digit
groups, which Python also accepts, are not modelled; no claim of this
development evaluates the parser on such an input. -/
def pyFloatOfString (s : String) : Option PyFloat :=
  let t := pyLower (pyStrip s)
  if t == "inf" || t == "+inf" || t == "infinity" || t == "+infinity" then some .inf
  else if t == "-inf" || t == "-infinity" then some .negInf
  else if t == "nan" || t == "+nan" || t == "-nan" then some .nan
  else (parseSigned t.data).map (fun p => .finite p.1 p.2)

/-- Truncation of a rational toward zero, the value of Python `int` on a
finite float cell. -/
def ratTrunc (q : Rat) : Int :=
  Int.tdiv q.num (Int.ofNat q.den)

/-- Truncation toward zero of a scaled integer value `m * 10 ^ scale`. -/
def scaledTrunc (m : Int) (scale : Int) : Int :=
  match scale with
  | .ofNat k => m * ((10 : Int) ^ k)
  | .negSucc k => Int.tdiv m ((10 : Int) ^ (k + 1))

/-- Model of Python `int(f)` on a float: truncates a finite value, raises
ValueError on NaN and OverflowError on an infinity. -/
def pyIntOfFloat : PyFloat → Except PyExn Int
  | .finite m scale => .ok (scaledTrunc m scale)
  | .inf => .error .overflowError
  | .negInf => .error .overflowError
  | .nan => .error .valueError

/-- The conversion chain `int(float(str(value).strip()))` of the source.
For an int cell the chain reproduces the int and for a finite float cell
it truncates, as the decimal rendering of those values round trips; for a
string cell the chain runs the float parser. -/
def pyNumChain (v : CsvVal) : Except PyExn Int :=
  match v with
  | .vStr s =>
      match pyFloatOfString (pyStrip s) with
      | none => .error .valueError
      | some f => pyIntOfFloat f
  | .vInt n => .ok n
  | .vFloat q => .ok (ratTrunc q)
  | .vNone => .error .typeError
  | .vNaN => .error .valueError

/-- Translation of `ToolService._parse_number` (tool_service.py lines
125-132): returns 0 for missing and empty values, otherwise runs the
conversion chain, catching ValueError and TypeError but nothing else, so
an OverflowError from `int(float("inf"))` escapes. -/
def tool_parse_number (v : CsvVal) : Except PyExn Int :=
  if pyIsNa v || pyEqEmptyStr v then .ok 0
  else
    match pyNumChain v with
    | .ok n => .ok n
    | .error .valueError => .ok 0
    | .error .typeError => .ok 0
    | .error .overflowError => .error .overflowError

/-- Translation of `BabyPartService._parse_number` (baby_part_service.py
lines 48-63): the None and empty and NaN tests happen before the guarded
conversion, with the same catch list as the tool variant. -/
def baby_parse_number (v : CsvVal) : Except PyExn Int :=
  if (v == .vNone) || pyEqEmptyStr v || pyIsNa v then .ok 0
  else
    match pyNumChain v with
    | .ok n => .ok n
    | .error .valueError => .ok 0
    | .error .typeError => .ok 0
    | .error .overflowError => .error .overflowError

deriving instance DecidableEq for Except

/-- Failure taxonomy of the service layer, following the spec section 7:
`notFound` and `validation` are both Python ValueError in the source and
are distinguished here by their role, `permissionDenied` is Python
PermissionError, `ioFailure` is Python IOError, `otherFailure` is the
generic Exception branch of the save path, and `overflow` is the
OverflowError that escapes the numeric parsing chain uncaught. -/
inductive SvcErr where
  | notFound (msg : String)
  | validation (msg : String)
  | permissionDenied (msg : String)
  | ioFailure (msg : String)
  | otherFailure (msg : String)
  | overflow
deriving DecidableEq

/-- Lift the parse chain result into the service error type. -/
def liftParse (r : Except PyExn Int) : Except SvcErr Int :=
  match r with
  | .ok n => .ok n
  | .error _ => .error .overflow

/-- First pass predicate of the matcher: both the stored key and the query
are stripped and unicode normalized, then compared exactly.  `nfkc` is
the NFKC normalization map of `unicodedata.normalize`, kept abstract
because no claim depends on its table. -/
def pass1 (nfkc : String → String) (keyOf : ρ → String) (q : String) (r : ρ) : Bool :=
  nfkc (keyOf r) == nfkc (pyStrip q)

/-- Second pass predicate of the matcher: the comparison of the first
pass repeated case insensitively. -/
def pass2 (nfkc : String → String) (keyOf : ρ → String) (q : String) (r : ρ) : Bool :=
  pyLower (nfkc (keyOf r)) == pyLower (nfkc (pyStrip q))

/-- The two pass key matcher shared by `get_by_tools_name`
(tool_service.py lines 297-351) and `get_by_baby_part_name`
(baby_part_service.py lines 262-299): drop the rows whose key cell is
missing or blank, try the exact normalized comparison, and only when that
yields no row repeat it case insensitively; the first row of the winning
pass is the result. -/
def resolveTwoPass (nfkc : String → String) (keyOf : ρ → String) (valid : ρ → Bool)
    (rows : List ρ) (q : String) : Option ρ :=
  match (rows.filter valid).find? (pass1 nfkc keyOf q) with
  | some r => some r
  | none => (rows.filter valid).find? (pass2 nfkc keyOf q)

/-- Row of `stock_detail.csv` after header normalization, with one field
per column that the tool service reads or writes. -/
structure ToolRow where
  part_name : CsvVal
  brand : CsvVal
  detail_specification : CsvVal
  picture : CsvVal
  total : CsvVal
  new : CsvVal
  old : CsvVal
  uom : CsvVal
  remark : CsvVal
deriving DecidableEq

/-- The stored key of a tool row as the matcher sees it:
`astype(str).str.strip()` of the part name cell. -/
def toolRowKey (r : ToolRow) : String :=
  pyStrip (pyStrOfVal r.part_name)

/-- The blank row filter applied before matching: the part name cell is
present (`notna`) and not blank after stripping. -/
def toolValidRow (r : ToolRow) : Bool :=
  !pyIsNa r.part_name && toolRowKey r ≠ ""

/-- Message of the ValueError raised when a tool key resolves to no row. -/
def toolNotFoundMsg (q : String) : String :=
  "Tool with part_name " ++ sqc ++ pyStrip q ++ sqc ++ " not found"

/-- Row selection of `ToolService.get_by_tools_name`: the two pass
matcher applied to the tool rows. -/
def resolveToolRow (nfkc : String → String) (rows : List ToolRow) (q : String) : Option ToolRow :=
  resolveTwoPass nfkc toolRowKey toolValidRow rows q

/-- Translation of `ToolService.get_by_tools_name` at the level of the
selected row: the matched row when one exists, else the ValueError of
line 351.  The Python additionally converts the matched row into a
response dictionary; the numeric conversions of that dictionary are
modelled by `toolCurrentData` where the update path consumes them. -/
def get_by_tools_name (nfkc : String → String) (rows : List ToolRow) (q : String) :
    Except SvcErr ToolRow :=
  match resolveToolRow nfkc rows q with
  | some r => .ok r
  | none => .error (.notFound (toolNotFoundMsg q))

/-- Row of `baby_part.csv` after header normalization. -/
structure BabyRow where
  baby_parts : CsvVal
  qty : CsvVal
deriving DecidableEq

/-- The stored key of a baby part row as the matcher sees it. -/
def babyRowKey (r : BabyRow) : String :=
  pyStrip (pyStrOfVal r.baby_parts)

/-- The blank row filter of the baby part service. -/
def babyValidRow (r : BabyRow) : Bool :=
  !pyIsNa r.baby_parts && babyRowKey r ≠ ""

/-- Message of the ValueError raised when a baby part key resolves to no
row. -/
def babyNotFoundMsg (q : String) : String :=
  "Baby part with name " ++ sqc ++ pyStrip q ++ sqc ++ " not found"

/-- Row selection of `BabyPartService.get_by_baby_part_name`. -/
def resolveBabyRow (nfkc : String → String) (rows : List BabyRow) (q : String) : Option BabyRow :=
  resolveTwoPass nfkc babyRowKey babyValidRow rows q

/-- Translation of `BabyPartService.get_by_baby_part_name` at the level
of the selected row. -/
def get_by_baby_part_name (nfkc : String → String) (rows : List BabyRow) (q : String) :
    Except SvcErr BabyRow :=
  match resolveBabyRow nfkc rows q with
  | some r => .ok r
  | none => .error (.notFound (babyNotFoundMsg q))

/-- Translation of the local `normalize_value` helper of the update
methods (tool_service.py lines 404-409, baby_part_service.py lines
346-351): None becomes the empty string, an integral float becomes the
int of the same value, other ints and floats pass through, and everything
else is rendered as stripped text. -/
def normalize_value (v : CsvVal) : CsvVal :=
  match v with
  | .vNone => .vStr ""
  | .vInt n => .vInt n
  | .vNaN => .vNaN
  | .vFloat q => if q.den = 1 then .vInt q.num else .vFloat q
  | .vStr s => .vStr (pyStrip s)

/-- Model of the Python `==` comparison on scalars: numbers compare by
value across int and float, strings compare as text, None equals None,
NaN equals nothing, and values of different kinds are unequal. -/
def pyEq (a b : CsvVal) : Bool :=
  match a, b with
  | .vStr x, .vStr y => x == y
  | .vInt x, .vInt y => x == y
  | .vInt x, .vFloat y => y.den == 1 && y.num == x
  | .vFloat x, .vInt y => x.den == 1 && x.num == y
  | .vFloat x, .vFloat y => x == y
  | .vNone, .vNone => true
  | _, _ => false

/-- The canonical field tuple that the update methods compare and write:
one entry per column of `csv_data`, with `brand` excluded because the
comparison never looks at it. -/
structure ToolFields where
  part_name : CsvVal
  detail_specification : CsvVal
  picture : CsvVal
  total : CsvVal
  new : CsvVal
  old : CsvVal
  uom : CsvVal
  remark : CsvVal
deriving DecidableEq

/-- The pure part of `current_data` in `update_by_tools_name` (lines
412-422), with the three numeric cells passed in after parsing.  The
values reproduce the response dictionary of `get_by_tools_name` fed
through the `or` chains of lines 413-421: the strings collapse to the
stripped cell text, the numbers to the parsed ints, and an empty uom
falls back to `"Pcs"`. -/
def toolCurrentCore (r : ToolRow) (t n o : Int) : ToolFields :=
  { part_name := .vStr (toolRowKey r)
    detail_specification := .vStr (pyStrip (pyStrOfVal r.detail_specification))
    picture := .vStr (pyStrip (pyStrOfVal r.picture))
    total := .vInt t
    new := .vInt n
    old := .vInt o
    uom := .vStr (if pyStrip (pyStrOfVal r.uom) = "" then "Pcs" else pyStrip (pyStrOfVal r.uom))
    remark := .vStr (pyStrip (pyStrOfVal r.remark)) }

/-- `current_data` of `update_by_tools_name` including the numeric
parses of the response dictionary of `get_by_tools_name`, which can
propagate an uncaught OverflowError. -/
def toolCurrentData (r : ToolRow) : Except SvcErr ToolFields :=
  match liftParse (tool_parse_number r.total) with
  | .error e => .error e
  | .ok t =>
      match liftParse (tool_parse_number r.new) with
      | .error e => .error e
      | .ok n =>
          match liftParse (tool_parse_number r.old) with
          | .error e => .error e
          | .ok o => .ok (toolCurrentCore r t n o)

/-- The pure part of `new_data` in `update_by_tools_name` (lines
427-437), with the three numeric fields passed in after parsing. -/
def toolNewCore (upd : PyDict) (default_pn : String) (t n o : Int) : ToolFields :=
  { part_name := pyOr (pyGet upd "tools_name") (pyGetD upd "Part Name" (.vStr default_pn))
    detail_specification := .vStr (pyStrip (pyStrOfVal (pyOr (pyGet upd "stock_detail")
      (pyOr (pyGet upd "Detail Specification") (pyOr (pyGet upd "description") (.vStr ""))))))
    picture := .vStr (pyStrip (pyStrOfVal (pyOr (pyGet upd "photo")
      (pyOr (pyGet upd "Picture") (.vStr "")))))
    total := .vInt t
    new := .vInt n
    old := .vInt o
    uom := .vStr (pyStrip (pyStrOfVal (pyOr (pyGet upd "uom")
      (pyOr (pyGet upd "UOM") (.vStr "Pcs")))))
    remark := .vStr (pyStrip (pyStrOfVal (pyOr (pyGet upd "remark")
      (pyOr (pyGet upd "Remark") (.vStr ""))))) }

/-- `new_data` of `update_by_tools_name`: the incoming payload fed
through the `or` chains, string normalization and numeric parsing of
lines 427-437. -/
def toolNewData (upd : PyDict) (default_pn : String) : Except SvcErr ToolFields :=
  match liftParse (tool_parse_number (pyOr (pyGet upd "current_stock")
      (pyOr (pyGet upd "Total") (.vInt 0)))) with
  | .error e => .error e
  | .ok t =>
      match liftParse (tool_parse_number (pyOr (pyGet upd "stock_new")
          (pyOr (pyGet upd "NEW") (.vInt 0)))) with
      | .error e => .error e
      | .ok n =>
          match liftParse (tool_parse_number (pyOr (pyGet upd "stock_old")
              (pyOr (pyGet upd "OLD") (.vInt 0)))) with
          | .error e => .error e
          | .ok o => .ok (toolNewCore upd default_pn t n o)

/-- The change detection of `update_by_tools_name` (lines 440-459): some
compared field differs after `normalize_value` on both sides. -/
def toolHasChanges (cur nd : ToolFields) : Bool :=
  !pyEq (normalize_value cur.part_name) (normalize_value nd.part_name) ||
  !pyEq (normalize_value cur.detail_specification) (normalize_value nd.detail_specification) ||
  !pyEq (normalize_value cur.picture) (normalize_value nd.picture) ||
  !pyEq (normalize_value cur.total) (normalize_value nd.total) ||
  !pyEq (normalize_value cur.new) (normalize_value nd.new) ||
  !pyEq (normalize_value cur.old) (normalize_value nd.old) ||
  !pyEq (normalize_value cur.uom) (normalize_value nd.uom) ||
  !pyEq (normalize_value cur.remark) (normalize_value nd.remark)

/-- The `csv_data` row written by the update path (lines 470-480): the
new field tuple with an empty brand column. -/
def toolCsvRow (nd : ToolFields) : ToolRow :=
  { part_name := nd.part_name
    brand := .vStr ""
    detail_specification := nd.detail_specification
    picture := nd.picture
    total := nd.total
    new := nd.new
    old := nd.old
    uom := nd.uom
    remark := nd.remark }

/-- Replace the first occurrence of `old` in a list. -/
def replaceFirstOcc [DecidableEq ρ] (rows : List ρ) (old new : ρ) : List ρ :=
  match rows with
  | [] => []
  | r :: rest => if r = old then new :: rest else r :: replaceFirstOcc rest old new

/-- Remove the first occurrence of `old` from a list. -/
def removeFirstOcc [DecidableEq ρ] (rows : List ρ) (old : ρ) : List ρ :=
  match rows with
  | [] => []
  | r :: rest => if r = old then rest else r :: removeFirstOcc rest old

/-- Outcome of an update: either the no changes acknowledgement, which
performs no file write, or the updated collection, which is persisted
with one file write. -/
inductive UpdResult (ρ : Type) where
  | noChanges
  | updated (rows : List ρ)
deriving DecidableEq

/-- Number of file writes an update outcome performs. -/
def updWrites : UpdResult ρ → Nat
  | .noChanges => 0
  | .updated _ => 1

/-- Modelled from the spec: `BaseService.update` is not under the
provided sources; spec section 4.3 specifies that update resolves the
target row via the Text Matcher and, when the key does not resolve,
proceeds as an insert with the given key, else rewrites the resolved row
in place. -/
def base_update (nfkc : String → String) (keyOf : ρ → String) (valid : ρ → Bool)
    [DecidableEq ρ] (rows : List ρ) (key : String) (newRow : ρ) : List ρ :=
  match resolveTwoPass nfkc keyOf valid rows key with
  | some r => replaceFirstOcc rows r newRow
  | none => rows ++ [newRow]

/-- Modelled from the spec: `BaseService.delete` is not under the
provided sources; spec section 4.3 specifies that delete resolves the key
via the Text Matcher, removes the row and persists, and fails with
NotFound when the key does not resolve, leaving the collection as it
was. -/
def base_delete (nfkc : String → String) (keyOf : ρ → String) (valid : ρ → Bool)
    [DecidableEq ρ] (rows : List ρ) (key : String) : Except SvcErr Unit × List ρ :=
  match resolveTwoPass nfkc keyOf valid rows key with
  | some r => (.ok (), removeFirstOcc rows r)
  | none => (.error (.notFound ("Record with key " ++ sqc ++ key ++ sqc ++ " not found")), rows)

/-- Modelled from the spec: `BaseService.bulk_upsert` is not under the
provided sources; spec section 4.3 specifies that for each input record
an existing row with the same resolved key is replaced in place and
otherwise the row is appended, with one file write for the whole
batch. -/
def base_bulk_upsert (nfkc : String → String) (keyOf : ρ → String) (valid : ρ → Bool)
    [DecidableEq ρ] (rows : List ρ) (recs : List ρ) : List ρ :=
  recs.foldl (fun acc rec =>
    match resolveTwoPass nfkc keyOf valid acc (keyOf rec) with
    | some r => replaceFirstOcc acc r rec
    | none => acc ++ [rec]) rows

/-- Translation of `ToolService.update_by_tools_name` (lines 380-482):
resolve the key, treating a NotFound from the getter as the insert path;
build the current and new field tuples; in edit mode return the no
changes acknowledgement when no compared field differs; otherwise write
through the base update keyed by the resolved (or given) name. -/
def update_by_tools_name (nfkc : String → String) (rows : List ToolRow) (tools_name : String)
    (upd : PyDict) : Except SvcErr (UpdResult ToolRow) :=
  match resolveToolRow nfkc rows tools_name with
  | some r =>
      match toolCurrentData r with
      | .error e => .error e
      | .ok cur =>
          match toolNewData upd (toolRowKey r) with
          | .error e => .error e
          | .ok nd =>
              if toolHasChanges cur nd then
                .ok (.updated (base_update nfkc toolRowKey toolValidRow rows
                  (toolRowKey r) (toolCsvRow nd)))
              else .ok .noChanges
  | none =>
      match toolNewData upd tools_name with
      | .error e => .error e
      | .ok nd =>
          .ok (.updated (base_update nfkc toolRowKey toolValidRow rows
            tools_name (toolCsvRow nd)))

/-- Translation of `ToolService.delete_by_tools_name` (lines 484-498):
the getter runs without a guard, so its NotFound propagates and the
collection is untouched; on success the base delete runs keyed by the
resolved part name. -/
def delete_by_tools_name (nfkc : String → String) (rows : List ToolRow) (q : String) :
    Except SvcErr Unit × List ToolRow :=
  match get_by_tools_name nfkc rows q with
  | .error e => (.error e, rows)
  | .ok r => base_delete nfkc toolRowKey toolValidRow rows (toolRowKey r)

/-- The primary key chain of one bulk upsert input record (line 518):
`tools_name or Part Name or TOOLS NAME` with an empty default. -/
def toolBulkKey (d : PyDict) : CsvVal :=
  pyOr (pyGet d "tools_name") (pyOr (pyGet d "Part Name") (pyGetD d "TOOLS NAME" (.vStr "")))

/-- Normalization of one bulk upsert input record (lines 517-534): a
record whose key chain is falsy is skipped before any conversion runs;
otherwise the record is converted to the csv row shape, where the numeric
parses can raise. -/
def normalizeOneTool (d : PyDict) : Except SvcErr (Option ToolRow) :=
  if pyTruthy (toolBulkKey d) = false then .ok none
  else
    match liftParse (tool_parse_number (pyOr (pyGet d "current_stock")
        (pyGetD d "Total" (.vInt 0)))) with
    | .error e => .error e
    | .ok t =>
        match liftParse (tool_parse_number (pyOr (pyGet d "stock_new")
            (pyGetD d "NEW" (.vInt 0)))) with
        | .error e => .error e
        | .ok n =>
            match liftParse (tool_parse_number (pyOr (pyGet d "stock_old")
                (pyGetD d "OLD" (.vInt 0)))) with
            | .error e => .error e
            | .ok o =>
                .ok (some
                  { part_name := toolBulkKey d
                    brand := .vStr ""
                    detail_specification := pyOr (pyGet d "stock_detail")
                      (pyOr (pyGet d "Detail Specification") (pyGetD d "description" (.vStr "")))
                    picture := pyOr (pyGet d "photo") (pyGetD d "Picture" (.vStr ""))
                    total := .vInt t
                    new := .vInt n
                    old := .vInt o
                    uom := pyOr (pyGet d "uom") (pyGetD d "UOM" (.vStr "Pcs"))
                    remark := pyOr (pyGet d "remark") (pyGetD d "Remark" (.vStr "")) })

/-- The normalization loop of `ToolService.bulk_upsert` over the whole
input list, in order, keeping the converted rows of the records that were
not skipped. -/
def normalizeToolRecords : List PyDict → Except SvcErr (List ToolRow)
  | [] => .ok []
  | d :: rest =>
      match normalizeOneTool d with
      | .error e => .error e
      | .ok r =>
          match normalizeToolRecords rest with
          | .error e => .error e
          | .ok rs =>
              .ok (match r with
                   | some row => row :: rs
                   | none => rs)

/-- Translation of `ToolService.bulk_upsert` (lines 500-537): an empty
payload is rejected with the ValueError of line 513; otherwise the
records are normalized, skipping those without a key, and handed to the
base bulk upsert in one batch. -/
def tool_bulk_upsert (nfkc : String → String) (rows : List ToolRow) (input : List PyDict) :
    Except SvcErr (List ToolRow) :=
  if input.isEmpty then .error (.validation "No data provided")
  else
    match normalizeToolRecords input with
    | .error e => .error e
    | .ok recs => .ok (base_bulk_upsert nfkc toolRowKey toolValidRow rows recs)

/-- One record of the list that `ToolService.get_all` returns, with the
fields the claims inspect; the duplicate original-header entries of the
response dictionary carry the same values. -/
structure ToolOut where
  tools_name : String
  current_stock : Int
  stock_new : Int
  stock_old : Int
  stock_detail : String
  photo : String
  uom : String
  remark : String
deriving DecidableEq

/-- Conversion of one filtered row inside `ToolService.get_all` (lines
93-120): re-check that the stripped part name is non empty, then build
the normalized record; the numeric parses can raise. -/
def toolOutOfRow (r : ToolRow) : Except SvcErr (Option ToolOut) :=
  if toolRowKey r = "" then .ok none
  else
    match liftParse (tool_parse_number r.total) with
    | .error e => .error e
    | .ok t =>
        match liftParse (tool_parse_number r.new) with
        | .error e => .error e
        | .ok n =>
            match liftParse (tool_parse_number r.old) with
            | .error e => .error e
            | .ok o =>
                .ok (some
                  { tools_name := toolRowKey r
                    current_stock := t
                    stock_new := n
                    stock_old := o
                    stock_detail := pyStrip (pyStrOfVal r.detail_specification)
                    photo := pyStrip (pyStrOfVal r.picture)
                    uom := pyStrip (pyStrOfVal r.uom)
                    remark := pyStrip (pyStrOfVal r.remark) })

/-- The conversion loop of `get_all` over a list of rows. -/
def toolOutList : List ToolRow → Except SvcErr (List ToolOut)
  | [] => .ok []
  | r :: rest =>
      match toolOutOfRow r with
      | .error e => .error e
      | .ok o =>
          match toolOutList rest with
          | .error e => .error e
          | .ok os =>
              .ok (match o with
                   | some x => x :: os
                   | none => os)

/-- Translation of `ToolService.get_all` (lines 49-123): the blank row
mask (lines 83-84) followed by the per row conversion with its own skip
of empty part names (lines 95-97). -/
def tool_get_all (rows : List ToolRow) : Except SvcErr (List ToolOut) :=
  toolOutList (rows.filter toolValidRow)

/-- The canonical field pair compared and written by
`update_by_baby_part_name`. -/
structure BabyFields where
  baby_parts : CsvVal
  qty : CsvVal
deriving DecidableEq

/-- The pure part of `current_data` in `update_by_baby_part_name` (lines
354-358), with the qty cell passed in after parsing; the `or` chain over
the response dictionary of the getter collapses to the parsed value. -/
def babyCurrentCore (r : BabyRow) (q0 : Int) : BabyFields :=
  { baby_parts := .vStr (babyRowKey r)
    qty := .vInt q0 }

/-- `current_data` of `update_by_baby_part_name` including the qty parse
of the getter, which can propagate an uncaught OverflowError. -/
def babyCurrentData (r : BabyRow) : Except SvcErr BabyFields :=
  match liftParse (baby_parse_number r.qty) with
  | .error e => .error e
  | .ok q0 => .ok (babyCurrentCore r q0)

/-- The pure part of `new_data` in `update_by_baby_part_name` (lines
363-367), with the qty passed in after parsing. -/
def babyNewCore (upd : PyDict) (default_pn : String) (q0 : Int) : BabyFields :=
  { baby_parts := pyOr (pyGet upd "baby_parts") (pyGetD upd "Baby Parts" (.vStr default_pn))
    qty := .vInt q0 }

/-- `new_data` of `update_by_baby_part_name`. -/
def babyNewData (upd : PyDict) (default_pn : String) : Except SvcErr BabyFields :=
  match liftParse (baby_parse_number (pyOr (pyGet upd "qty")
      (pyOr (pyGet upd "Qty") (pyOr (pyGet upd "quantity") (.vInt 0))))) with
  | .error e => .error e
  | .ok q0 => .ok (babyNewCore upd default_pn q0)

/-- The change detection of `update_by_baby_part_name` (lines 370-377). -/
def babyHasChanges (cur nd : BabyFields) : Bool :=
  !pyEq (normalize_value cur.baby_parts) (normalize_value nd.baby_parts) ||
  !pyEq (normalize_value cur.qty) (normalize_value nd.qty)

/-- The `csv_data` row written by the baby part update path (lines
388-391). -/
def babyCsvRow (nd : BabyFields) : BabyRow :=
  { baby_parts := nd.baby_parts
    qty := nd.qty }

/-- Translation of `BabyPartService.update_by_baby_part_name` (lines
325-393), with the same shape as the tool variant. -/
def update_by_baby_part_name (nfkc : String → String) (rows : List BabyRow)
    (baby_part_name : String) (upd : PyDict) : Except SvcErr (UpdResult BabyRow) :=
  match resolveBabyRow nfkc rows baby_part_name with
  | some r =>
      match babyCurrentData r with
      | .error e => .error e
      | .ok cur =>
          match babyNewData upd (babyRowKey r) with
          | .error e => .error e
          | .ok nd =>
              if babyHasChanges cur nd then
                .ok (.updated (base_update nfkc babyRowKey babyValidRow rows
                  (babyRowKey r) (babyCsvRow nd)))
              else .ok .noChanges
  | none =>
      match babyNewData upd baby_part_name with
      | .error e => .error e
      | .ok nd =>
          .ok (.updated (base_update nfkc babyRowKey babyValidRow rows
            baby_part_name (babyCsvRow nd)))

/-- Translation of `BabyPartService.delete_by_baby_part_name` (lines
395-413): unlike the tool variant, a NotFound from the getter is caught
and the base delete runs with the raw query as the key. -/
def delete_by_baby_part_name (nfkc : String → String) (rows : List BabyRow) (q : String) :
    Except SvcErr Unit × List BabyRow :=
  match get_by_baby_part_name nfkc rows q with
  | .ok r => base_delete nfkc babyRowKey babyValidRow rows (babyRowKey r)
  | .error _ => base_delete nfkc babyRowKey babyValidRow rows q

/-- One record of the list that `BabyPartService.get_all` returns. -/
structure BabyOut where
  baby_parts : String
  qty : Int
deriving DecidableEq

/-- Conversion of one filtered row inside `BabyPartService.get_all`
(lines 100-113). -/
def babyOutOfRow (r : BabyRow) : Except SvcErr (Option BabyOut) :=
  if babyRowKey r = "" then .ok none
  else
    match liftParse (baby_parse_number r.qty) with
    | .error e => .error e
    | .ok q0 => .ok (some { baby_parts := babyRowKey r, qty := q0 })

/-- The conversion loop of the baby part `get_all` over a list of rows. -/
def babyOutList : List BabyRow → Except SvcErr (List BabyOut)
  | [] => .ok []
  | r :: rest =>
      match babyOutOfRow r with
      | .error e => .error e
      | .ok o =>
          match babyOutList rest with
          | .error e => .error e
          | .ok os =>
              .ok (match o with
                   | some x => x :: os
                   | none => os)

/-- Translation of `BabyPartService.get_all` (lines 65-115): the blank
row mask (lines 95-96) followed by the per row conversion. -/
def baby_get_all (rows : List BabyRow) : Except SvcErr (List BabyOut) :=
  babyOutList (rows.filter babyValidRow)

/-- Message of the fail fast read-only check (tool_service.py lines
183-187, baby_part_service.py lines 159-163). -/
def readOnlyMsg (path : String) : String :=
  "File " ++ sqc ++ path ++ sqc ++ " is read-only or locked. " ++
  "Please close the file if it" ++ sqc ++ "s open in another application (Excel, Notepad, etc.) " ++
  "and ensure you have write permissions."

/-- Message of the errno 13 lock detection (lines 196-203 and 172-179). -/
def lockedMsg (path : String) : String :=
  "Permission denied: Cannot write to file " ++ sqc ++ path ++ sqc ++ ". " ++
  "The file may be:\n" ++
  "1. Open in another application (Excel, Notepad, etc.) - Please close it\n" ++
  "2. Set to read-only - Check file properties and remove read-only attribute\n" ++
  "3. Locked by another process - Restart your computer if needed\n" ++
  "4. Protected by antivirus - Check antivirus settings"

/-- Message of the non errno 13 branch of the open check. -/
def cannotAccessMsg (path errText : String) : String :=
  "Cannot access file " ++ sqc ++ path ++ sqc ++ ". Error: " ++ errText

/-- Message of the outer IOError handler that wraps any IOError of the
inner body (lines 236-239 and 212-215). -/
def ioWrapMsg (path inner : String) : String :=
  "Cannot write to file " ++ sqc ++ path ++ sqc ++ ". Error: " ++ inner ++
  "\nPlease ensure the file is not open in another application."

/-- Message of the PermissionError handler around `to_csv` (lines
215-223 and 191-199). -/
def savePermMsg (path errText : String) : String :=
  "Permission denied: Cannot save to file " ++ sqc ++ path ++ sqc ++ ". Error: " ++ errText ++
  "\nPlease ensure:\n" ++
  "1. The file is not open in Excel, Notepad, or any other application\n" ++
  "2. You have write permissions to the file and directory\n" ++
  "3. The file is not set to read-only\n" ++
  "4. No antivirus is blocking file access"

/-- Message of the IOError handler around `to_csv` (lines 225-229 and
201-205), before the outer handler wraps it once more. -/
def writeIOInnerMsg (path errText : String) : String :=
  "Cannot write to file " ++ sqc ++ path ++ sqc ++ ". Error: " ++ errText ++
  "\nPlease close the file if it" ++ sqc ++ "s open in another application."

/-- Message of the generic exception handler when the text looks like a
permission problem (lines 245-249 and 221-225). -/
def otherPermMsg (path : String) : String :=
  "Permission denied: Cannot save to file " ++ sqc ++ path ++ sqc ++ ". " ++
  "Please close the file if it" ++ sqc ++ "s open in Excel, Notepad, or any other application, " ++
  "and ensure you have write permissions."

/-- Message of the generic exception handler otherwise (line 251 and
227). -/
def failedSaveMsg (entity errText : String) : String :=
  "Failed to save " ++ entity ++ " data: " ++ errText

/-- Outcome of the `to_csv` call when the save path reaches it. -/
inductive WriteErr where
  | wPerm (errText : String)
  | wIOFail (errText : String)
  | wOther (errText : String)
deriving DecidableEq

/-- Explicit state of the backing file as the save path observes it:
whether it exists, whether the write permission bit allows writing, what
the open-for-update probe raises (errno and rendered text) if anything,
what the `to_csv` call would raise if reached, and the current
content. -/
structure FileState where
  fexists : Bool
  writable : Bool
  openErr : Option (Nat × String)
  writeErr : Option WriteErr
  content : String
deriving DecidableEq

/-- The write attempt at the end of the save path: only this step changes
the file content, and only when `to_csv` succeeds. -/
def attemptWrite (path entity : String) (fs : FileState) (new : String) :
    Option SvcErr × FileState :=
  match fs.writeErr with
  | none => (none, { fs with content := new })
  | some (.wPerm m) => (some (.permissionDenied (savePermMsg path m)), fs)
  | some (.wIOFail m) => (some (.ioFailure (ioWrapMsg path (writeIOInnerMsg path m))), fs)
  | some (.wOther m) =>
      if containsSub m "Permission denied" || containsSub m "Errno 13" ||
          containsSub m "[Errno 13]" then
        (some (.permissionDenied (otherPermMsg path)), fs)
      else (some (.otherFailure (failedSaveMsg entity m)), fs)

/-- The guarded file write of `_save_dataframe`, identical in
tool_service.py (lines 179-251) and baby_part_service.py (lines 155-227):
when the file exists, first the write permission bit check, then the
open-for-update probe whose errno 13 is reported as the detailed
PermissionError and whose other errors become a wrapped IOError; only
after both checks pass (or when the file does not exist yet) does the
write run. -/
def save_dataframe_guarded (path entity : String) (fs : FileState) (new : String) :
    Option SvcErr × FileState :=
  if fs.fexists then
    if !fs.writable then (some (.permissionDenied (readOnlyMsg path)), fs)
    else
      match fs.openErr with
      | some (13, _) => (some (.permissionDenied (lockedMsg path)), fs)
      | some (_, t) => (some (.ioFailure (ioWrapMsg path (cannotAccessMsg path t))), fs)
      | none => attemptWrite path entity fs new
  else attemptWrite path entity fs new

/-- The reverse header mapping of `ToolService._get_original_column_mapping`
(lines 134-146). -/
def toolColumnMapping : List (String × String) :=
  [("part_name", "Part Name"),
   ("brand", "Brand"),
   ("detail_specification", "Detail Specification"),
   ("picture", "Picture"),
   ("total", "Total"),
   ("new", "NEW"),
   ("old", "OLD"),
   ("uom", "UOM"),
   ("remark", "Remark")]

/-- The rename step of `_save_dataframe` (lines 156-162): columns with a
registered reverse mapping take their original header, the rest keep
their name. -/
def renameToolColumns (cols : List String) : List String :=
  cols.map (fun c =>
    match toolColumnMapping.find? (fun kv => kv.1 == c) with
    | some kv => kv.2
    | none => c)

/-- The fixed original column order of line 166. -/
def toolOriginalOrder : List String :=
  ["Part Name", "Brand", "Detail Specification", "Picture", "Total", "NEW", "OLD", "UOM", "Remark"]

/-- The column list that the tool `_save_dataframe` actually writes
(lines 154-177): rename, compute `final_columns` from the original order
plus the unmapped remainder, then add an empty Brand column when absent,
and finally select exactly `final_columns` — the selection runs after
`final_columns` was fixed, so a Brand column added in the preceding step
is not part of it. -/
def tool_save_columns (cols : List String) : List String :=
  let renamed := renameToolColumns cols
  let columns_to_include := toolOriginalOrder.filter (fun c => renamed.contains c)
  let remaining_cols := renamed.filter (fun c => !columns_to_include.contains c)
  let final_columns := columns_to_include ++ remaining_cols
  let withBrand := if renamed.contains "Brand" then renamed else renamed ++ ["Brand"]
  final_columns.filter (fun c => withBrand.contains c)

/-- Sample tool row used by the concrete witnesses. -/
def sampleTool1 : ToolRow :=
  { part_name := .vStr "Widget-A"
    brand := .vStr ""
    detail_specification := .vStr "alpha widget"
    picture := .vStr ""
    total := .vInt 5
    new := .vInt 3
    old := .vInt 2
    uom := .vStr "Pcs"
    remark := .vStr "" }

/-- Second sample tool row, equal to the first key up to case and
trailing whitespace. -/
def sampleTool2 : ToolRow :=
  { sampleTool1 with part_name := .vStr "widget-a ", total := .vInt 9 }

/-- Sample baby part row used by the concrete witnesses. -/
def sampleBaby1 : BabyRow :=
  { baby_parts := .vStr "Cap-3", qty := .vInt 4 }

/-- The value normalization rule of the claims, stated field by field for
the tool service: every compared field of the incoming data equals the
corresponding current field under `normalize_value` and the Python
comparison. -/
def toolFieldsAgree (cur nd : ToolFields) : Prop :=
  pyEq (normalize_value cur.part_name) (normalize_value nd.part_name) = true ∧
  pyEq (normalize_value cur.detail_specification) (normalize_value nd.detail_specification) = true ∧
  pyEq (normalize_value cur.picture) (normalize_value nd.picture) = true ∧
  pyEq (normalize_value cur.total) (normalize_value nd.total) = true ∧
  pyEq (normalize_value cur.new) (normalize_value nd.new) = true ∧
  pyEq (normalize_value cur.old) (normalize_value nd.old) = true ∧
  pyEq (normalize_value cur.uom) (normalize_value nd.uom) = true ∧
  pyEq (normalize_value cur.remark) (normalize_value nd.remark) = true

instance (cur nd : ToolFields) : Decidable (toolFieldsAgree cur nd) := by
  unfold toolFieldsAgree
  infer_instance

/-- The value normalization rule of the claims for the baby part
service. -/
def babyFieldsAgree (cur nd : BabyFields) : Prop :=
  pyEq (normalize_value cur.baby_parts) (normalize_value nd.baby_parts) = true ∧
  pyEq (normalize_value cur.qty) (normalize_value nd.qty) = true

instance (cur nd : BabyFields) : Decidable (babyFieldsAgree cur nd) := by
  unfold babyFieldsAgree
  infer_instance

/-- Dropping a satisfied predicate twice from the front is the same as
dropping it once. -/
theorem dropWhile_dropWhile_self (p : Char → Bool) (l : List Char) :
    (l.dropWhile p).dropWhile p = l.dropWhile p := by
  induction l with
  | nil => rfl
  | cons c cs ih =>
      cases h : p c <;> simp [List.dropWhile_cons, h, ih]

/-- Every list is some whitespace front followed by its dropWhile. -/
theorem exists_append_dropWhile (p : Char → Bool) (l : List Char) :
    ∃ s, l = s ++ l.dropWhile p := by
  induction l with
  | nil => exact ⟨[], rfl⟩
  | cons c cs ih =>
      cases h : p c
      · exact ⟨[], by simp [List.dropWhile_cons, h]⟩
      · obtain ⟨s, hs⟩ := ih
        refine ⟨c :: s, ?_⟩
        simpa [List.dropWhile_cons, h] using hs

/-- Dropping from the front does not lengthen a list. -/
theorem length_dw_le (p : Char → Bool) (l : List Char) :
    (l.dropWhile p).length ≤ l.length := by
  induction l with
  | nil => simp
  | cons c cs ih =>
      cases h : p c
      · simp [List.dropWhile_cons, h]
      · simp only [List.dropWhile_cons, h, if_pos]
        exact Nat.le_trans ih (Nat.le_succ _)

/-- A front trimmed list stays front trimmed when a tail is removed. -/
theorem dropWhile_eq_self_of_front (p : Char → Bool) (P t : List Char)
    (h : (P ++ t).dropWhile p = P ++ t) : P.dropWhile p = P := by
  cases P with
  | nil => rfl
  | cons c ps =>
      cases hc : p c
      · simp [List.dropWhile_cons, hc]
      · exfalso
        have hlen : ((c :: ps ++ t).dropWhile p).length = (c :: ps ++ t).length :=
          congrArg List.length h
        have hred : (c :: ps ++ t).dropWhile p = (ps ++ t).dropWhile p := by
          simp [List.dropWhile_cons, hc]
        rw [hred] at hlen
        have hle := length_dw_le p (ps ++ t)
        simp only [List.cons_append, List.length_cons] at hlen
        omega

/-- Stripping both ends is idempotent. -/
theorem stripChars_idem (l : List Char) : stripChars (stripChars l) = stripChars l := by
  set w := Char.isWhitespace with hw
  set Z := l.dropWhile w with hZdef
  have hZ : Z.dropWhile w = Z := dropWhile_dropWhile_self w l
  obtain ⟨s, hs⟩ := exists_append_dropWhile w Z.reverse
  set P := (Z.reverse.dropWhile w).reverse with hPdef
  have hZP : Z = P ++ s.reverse := by
    have := congrArg List.reverse hs
    simpa [hPdef] using this
  have hPfront : P.dropWhile w = P := by
    apply dropWhile_eq_self_of_front w P s.reverse
    rw [← hZP]
    exact hZ
  have hPrev : P.reverse.dropWhile w = P.reverse := by
    have : P.reverse = Z.reverse.dropWhile w := by simp [hPdef]
    rw [this]
    exact dropWhile_dropWhile_self w Z.reverse
  show stripChars (stripChars l) = stripChars l
  have hstrip : stripChars l = P := by
    simp [stripChars, hPdef, hZdef]
  rw [hstrip]
  simp [stripChars, hPfront, hPrev]

/-- Python strip is idempotent. -/
theorem pyStrip_idem (s : String) : pyStrip (pyStrip s) = pyStrip s := by
  unfold pyStrip
  exact congrArg String.mk (stripChars_idem s.data)

/-- When the exact pass finds a row, the matcher returns it. -/
theorem resolveTwoPass_of_pass1 {nfkc : String → String} {keyOf : ρ → String}
    {valid : ρ → Bool} {rows : List ρ} {q : String} {r : ρ}
    (h : (rows.filter valid).find? (pass1 nfkc keyOf q) = some r) :
    resolveTwoPass nfkc keyOf valid rows q = some r := by
  unfold resolveTwoPass
  rw [h]

/-- When the exact pass finds nothing, the matcher is the case
insensitive pass. -/
theorem resolveTwoPass_of_pass1_none {nfkc : String → String} {keyOf : ρ → String}
    {valid : ρ → Bool} {rows : List ρ} {q : String}
    (h : (rows.filter valid).find? (pass1 nfkc keyOf q) = none) :
    resolveTwoPass nfkc keyOf valid rows q =
      (rows.filter valid).find? (pass2 nfkc keyOf q) := by
  unfold resolveTwoPass
  rw [h]

/-- The matcher fails exactly when both passes find nothing. -/
theorem resolveTwoPass_eq_none_iff {nfkc : String → String} {keyOf : ρ → String}
    {valid : ρ → Bool} {rows : List ρ} {q : String} :
    resolveTwoPass nfkc keyOf valid rows q = none ↔
      (rows.filter valid).find? (pass1 nfkc keyOf q) = none ∧
      (rows.filter valid).find? (pass2 nfkc keyOf q) = none := by
  unfold resolveTwoPass
  cases h1 : (rows.filter valid).find? (pass1 nfkc keyOf q) <;> simp [h1]

/-- A case insensitive match among the valid rows guarantees that the
matcher succeeds. -/
theorem resolveTwoPass_isSome_of_pass2 {nfkc : String → String} {keyOf : ρ → String}
    {valid : ρ → Bool} {rows : List ρ} {q : String} {r : ρ}
    (hr : r ∈ rows.filter valid) (h : pass2 nfkc keyOf q r = true) :
    ∃ x, resolveTwoPass nfkc keyOf valid rows q = some x := by
  cases h1 : (rows.filter valid).find? (pass1 nfkc keyOf q) with
  | some x => exact ⟨x, resolveTwoPass_of_pass1 h1⟩
  | none =>
      rw [resolveTwoPass_of_pass1_none h1]
      cases h2 : (rows.filter valid).find? (pass2 nfkc keyOf q) with
      | some x => exact ⟨x, rfl⟩
      | none =>
          exact absurd h (by simpa using List.find?_eq_none.mp h2 r hr)

/-- The change detector reports no change exactly when every compared
field agrees under the value normalization rule. -/
theorem toolHasChanges_false_iff (cur nd : ToolFields) :
    toolHasChanges cur nd = false ↔ toolFieldsAgree cur nd := by
  unfold toolHasChanges toolFieldsAgree
  simp [Bool.or_eq_false_iff, and_assoc]

/-- Baby part variant of `toolHasChanges_false_iff`. -/
theorem babyHasChanges_false_iff (cur nd : BabyFields) :
    babyHasChanges cur nd = false ↔ babyFieldsAgree cur nd := by
  unfold babyHasChanges babyFieldsAgree
  simp [Bool.or_eq_false_iff, and_assoc]

/-- C10: calling `bulk_upsert` with an empty input list is rejected with
the ValidationError "No data provided" instead of succeeding as a no-op;
the per record skip rule applies only inside a non empty batch. -/
theorem claim_C10 (nfkc : String → String) (rows : List ToolRow) :
    tool_bulk_upsert nfkc rows [] = .error (.validation "No data provided") := by
  rfl

/-- C7: the numeric parsing policy maps "5", "5.0", "", "abc" and None to
5, 5, 0, 0 and 0 and catches ValueError and TypeError, but it is not
total: on the input "inf" the chain `int(float("inf"))` raises an
OverflowError that the except clause does not cover, so parsing can
raise, contradicting the documented return-zero-if-invalid policy. -/
theorem claim_C7_parse_behavior :
    tool_parse_number (.vStr "5") = .ok 5 ∧
    tool_parse_number (.vStr "5.0") = .ok 5 ∧
    tool_parse_number (.vStr "") = .ok 0 ∧
    tool_parse_number (.vStr "abc") = .ok 0 ∧
    tool_parse_number .vNone = .ok 0 ∧
    tool_parse_number .vNaN = .ok 0 ∧
    tool_parse_number (.vStr "inf") = .error .overflowError ∧
    baby_parse_number (.vStr "5") = .ok 5 ∧
    baby_parse_number (.vStr "5.0") = .ok 5 ∧
    baby_parse_number (.vStr "") = .ok 0 ∧
    baby_parse_number (.vStr "abc") = .ok 0 ∧
    baby_parse_number .vNone = .ok 0 ∧
    baby_parse_number (.vStr "inf") = .error .overflowError := by
  decide

/-- C6: the save path renames canonical names to the original headers and
orders them by the fixed original order, but the re-added Brand column is
dropped again, because `final_columns` is computed before the column is
added and the closing selection keeps only `final_columns`; a dataframe
without a brand column is therefore written without the Brand column. -/
theorem claim_C6_brand_dropped :
    tool_save_columns
        ["part_name", "detail_specification", "picture", "total", "new", "old", "uom", "remark"] =
      ["Part Name", "Detail Specification", "Picture", "Total", "NEW", "OLD", "UOM", "Remark"] ∧
    (tool_save_columns
        ["part_name", "detail_specification", "picture", "total", "new", "old", "uom", "remark"]).contains
          "Brand" = false ∧
    tool_save_columns
        ["part_name", "brand", "detail_specification", "picture", "total", "new", "old", "uom", "remark"] =
      toolOriginalOrder := by
  decide

/-- C1: for both collections, key resolution first compares the stripped
and NFKC normalized query against the stripped and normalized stored keys
exactly; only when that pass yields no row does it repeat the comparison
case insensitively; it returns the first matching row of the winning
pass, and it fails with NotFound exactly when both passes find nothing,
so it never fails when some row matches case insensitively. -/
theorem claim_C1 :
    (∀ (nfkc : String → String) (rows : List ToolRow) (q : String),
      (∀ r, (rows.filter toolValidRow).find? (pass1 nfkc toolRowKey q) = some r →
        get_by_tools_name nfkc rows q = .ok r) ∧
      ((rows.filter toolValidRow).find? (pass1 nfkc toolRowKey q) = none →
        ∀ r, (rows.filter toolValidRow).find? (pass2 nfkc toolRowKey q) = some r →
          get_by_tools_name nfkc rows q = .ok r) ∧
      (get_by_tools_name nfkc rows q = .error (.notFound (toolNotFoundMsg q)) ↔
        ((rows.filter toolValidRow).find? (pass1 nfkc toolRowKey q) = none ∧
         (rows.filter toolValidRow).find? (pass2 nfkc toolRowKey q) = none)) ∧
      (∀ r ∈ rows.filter toolValidRow, pass2 nfkc toolRowKey q r = true →
        ∃ x, get_by_tools_name nfkc rows q = .ok x)) ∧
    (∀ (nfkc : String → String) (rows : List BabyRow) (q : String),
      (∀ r, (rows.filter babyValidRow).find? (pass1 nfkc babyRowKey q) = some r →
        get_by_baby_part_name nfkc rows q = .ok r) ∧
      ((rows.filter babyValidRow).find? (pass1 nfkc babyRowKey q) = none →
        ∀ r, (rows.filter babyValidRow).find? (pass2 nfkc babyRowKey q) = some r →
          get_by_baby_part_name nfkc rows q = .ok r) ∧
      (get_by_baby_part_name nfkc rows q = .error (.notFound (babyNotFoundMsg q)) ↔
        ((rows.filter babyValidRow).find? (pass1 nfkc babyRowKey q) = none ∧
         (rows.filter babyValidRow).find? (pass2 nfkc babyRowKey q) = none)) ∧
      (∀ r ∈ rows.filter babyValidRow, pass2 nfkc babyRowKey q r = true →
        ∃ x, get_by_baby_part_name nfkc rows q = .ok x)) := by
  constructor
  · intro nfkc rows q
    refine ⟨?_, ?_, ?_, ?_⟩
    · intro r h
      simp [get_by_tools_name, resolveToolRow, resolveTwoPass_of_pass1 h]
    · intro h1 r h2
      have := @resolveTwoPass_of_pass1_none ToolRow nfkc toolRowKey toolValidRow rows q h1
      simp [get_by_tools_name, resolveToolRow, this, h2]
    · constructor
      · intro h
        cases hres : resolveToolRow nfkc rows q with
        | some x => simp [get_by_tools_name, hres] at h
        | none => exact resolveTwoPass_eq_none_iff.mp hres
      · intro h
        have : resolveToolRow nfkc rows q = none := resolveTwoPass_eq_none_iff.mpr h
        simp [get_by_tools_name, this]
    · intro r hr h
      obtain ⟨x, hx⟩ := resolveTwoPass_isSome_of_pass2 hr h
      exact ⟨x, by simp [get_by_tools_name, resolveToolRow, hx]⟩
  · intro nfkc rows q
    refine ⟨?_, ?_, ?_, ?_⟩
    · intro r h
      simp [get_by_baby_part_name, resolveBabyRow, resolveTwoPass_of_pass1 h]
    · intro h1 r h2
      have := @resolveTwoPass_of_pass1_none BabyRow nfkc babyRowKey babyValidRow rows q h1
      simp [get_by_baby_part_name, resolveBabyRow, this, h2]
    · constructor
      · intro h
        cases hres : resolveBabyRow nfkc rows q with
        | some x => simp [get_by_baby_part_name, hres] at h
        | none => exact resolveTwoPass_eq_none_iff.mp hres
      · intro h
        have : resolveBabyRow nfkc rows q = none := resolveTwoPass_eq_none_iff.mpr h
        simp [get_by_baby_part_name, this]
    · intro r hr h
      obtain ⟨x, hx⟩ := resolveTwoPass_isSome_of_pass2 hr h
      exact ⟨x, by simp [get_by_baby_part_name, resolveBabyRow, hx]⟩

/-- Witness for C1 at concrete data: the query "WIDGET-A" has no exact
match among the keys "Widget-A" and "widget-a " but matches both case
insensitively, and resolution returns the first of them instead of
failing; the baby part getter behaves the same way. -/
theorem claim_C1_witness :
    get_by_tools_name id [sampleTool1, sampleTool2] "WIDGET-A" = .ok sampleTool1 ∧
    get_by_baby_part_name id [sampleBaby1] "cap-3" = .ok sampleBaby1 := by
  constructor
  · exact (claim_C1.1 id [sampleTool1, sampleTool2] "WIDGET-A").2.1 (by decide)
      sampleTool1 (by decide)
  · exact (claim_C1.2 id [sampleBaby1] "cap-3").2.1 (by decide) sampleBaby1 (by decide)

/-- The part name field of a successfully built `new_data` tuple is the
key chain of the payload with the given default. -/
theorem toolNewData_part_name {upd : PyDict} {dpn : String} {nd : ToolFields}
    (h : toolNewData upd dpn = .ok nd) :
    nd.part_name = pyOr (pyGet upd "tools_name") (pyGetD upd "Part Name" (.vStr dpn)) := by
  unfold toolNewData at h
  split at h
  · simp at h
  · split at h
    · simp at h
    · split at h
      · simp at h
      · injection h with h2
        rw [← h2]
        rfl

/-- The baby parts field of a successfully built `new_data` pair is the
key chain of the payload with the given default. -/
theorem babyNewData_key {upd : PyDict} {dpn : String} {nd : BabyFields}
    (h : babyNewData upd dpn = .ok nd) :
    nd.baby_parts = pyOr (pyGet upd "baby_parts") (pyGetD upd "Baby Parts" (.vStr dpn)) := by
  unfold babyNewData at h
  split at h
  · simp at h
  · injection h with h2
    rw [← h2]
    rfl

/-- C4: a delete whose key resolves to no row under the two pass matcher
fails with NotFound and leaves the collection unchanged, in the tool
service directly and in the baby part service through the base delete. -/
theorem claim_C4 (nfkc : String → String) (trows : List ToolRow) (brows : List BabyRow)
    (q : String)
    (ht : resolveToolRow nfkc trows q = none)
    (hb : resolveBabyRow nfkc brows q = none) :
    delete_by_tools_name nfkc trows q = (.error (.notFound (toolNotFoundMsg q)), trows) ∧
    (∃ m, (delete_by_baby_part_name nfkc brows q).1 = .error (.notFound m)) ∧
    (delete_by_baby_part_name nfkc brows q).2 = brows := by
  have hb2 : resolveTwoPass nfkc babyRowKey babyValidRow brows q = none := hb
  refine ⟨?_, ?_, ?_⟩
  · simp [delete_by_tools_name, get_by_tools_name, ht]
  · exact ⟨"Record with key " ++ sqc ++ q ++ sqc ++ " not found",
      by simp [delete_by_baby_part_name, get_by_baby_part_name, hb, base_delete, hb2]⟩
  · simp [delete_by_baby_part_name, get_by_baby_part_name, hb, base_delete, hb2]

/-- Witness for C4: deleting an unknown key from concrete collections
fails with NotFound and keeps both collections intact. -/
theorem claim_C4_witness :
    delete_by_tools_name id [sampleTool1] "missing-key" =
      (.error (.notFound (toolNotFoundMsg "missing-key")), [sampleTool1]) ∧
    (∃ m, (delete_by_baby_part_name id [sampleBaby1] "missing-key").1 =
      .error (.notFound m)) ∧
    (delete_by_baby_part_name id [sampleBaby1] "missing-key").2 = [sampleBaby1] :=
  claim_C4 id [sampleTool1] [sampleBaby1] "missing-key" (by decide) (by decide)

/-- C5: an update whose key resolves to no row does not fail with
NotFound: it proceeds as an insert appending a row that carries the key
chain of the payload (with the query as default) and the supplied field
values, and the no change check is skipped, so the result is never the
no changes acknowledgement. -/
theorem claim_C5 :
    (∀ (nfkc : String → String) (rows : List ToolRow) (q : String) (upd : PyDict)
        (nd : ToolFields),
      resolveToolRow nfkc rows q = none →
      toolNewData upd q = .ok nd →
      update_by_tools_name nfkc rows q upd = .ok (.updated (rows ++ [toolCsvRow nd])) ∧
      (toolCsvRow nd).part_name =
        pyOr (pyGet upd "tools_name") (pyGetD upd "Part Name" (.vStr q)) ∧
      update_by_tools_name nfkc rows q upd ≠ .ok .noChanges) ∧
    (∀ (nfkc : String → String) (rows : List BabyRow) (q : String) (upd : PyDict)
        (nd : BabyFields),
      resolveBabyRow nfkc rows q = none →
      babyNewData upd q = .ok nd →
      update_by_baby_part_name nfkc rows q upd = .ok (.updated (rows ++ [babyCsvRow nd])) ∧
      (babyCsvRow nd).baby_parts =
        pyOr (pyGet upd "baby_parts") (pyGetD upd "Baby Parts" (.vStr q)) ∧
      update_by_baby_part_name nfkc rows q upd ≠ .ok .noChanges) := by
  constructor
  · intro nfkc rows q upd nd hres hnd
    have hres2 : resolveTwoPass nfkc toolRowKey toolValidRow rows q = none := hres
    refine ⟨?_, ?_, ?_⟩
    · simp [update_by_tools_name, hres, hnd, base_update, hres2]
    · exact toolNewData_part_name hnd
    · simp [update_by_tools_name, hres, hnd]
  · intro nfkc rows q upd nd hres hnd
    have hres2 : resolveTwoPass nfkc babyRowKey babyValidRow rows q = none := hres
    refine ⟨?_, ?_, ?_⟩
    · simp [update_by_baby_part_name, hres, hnd, base_update, hres2]
    · exact babyNewData_key hnd
    · simp [update_by_baby_part_name, hres, hnd]

/-- Witness for C5: an update of an unknown key on concrete collections
appends the new row instead of failing. -/
theorem claim_C5_witness :
    update_by_tools_name id [sampleTool1] "NewTool" [("current_stock", .vStr "7")] =
      .ok (.updated ([sampleTool1] ++ [toolCsvRow
        { part_name := .vStr "NewTool", detail_specification := .vStr "",
          picture := .vStr "", total := .vInt 7, new := .vInt 0, old := .vInt 0,
          uom := .vStr "Pcs", remark := .vStr "" }])) ∧
    update_by_baby_part_name id [sampleBaby1] "Cap-9" [("qty", .vInt 2)] =
      .ok (.updated ([sampleBaby1] ++ [babyCsvRow
        { baby_parts := .vStr "Cap-9", qty := .vInt 2 }])) := by
  constructor
  · exact (claim_C5.1 id [sampleTool1] "NewTool" [("current_stock", .vStr "7")]
      { part_name := .vStr "NewTool", detail_specification := .vStr "",
        picture := .vStr "", total := .vInt 7, new := .vInt 0, old := .vInt 0,
        uom := .vStr "Pcs", remark := .vStr "" } (by decide) (by decide)).1
  · exact (claim_C5.2 id [sampleBaby1] "Cap-9" [("qty", .vInt 2)]
      { baby_parts := .vStr "Cap-9", qty := .vInt 2 } (by decide) (by decide)).1

/-- C2: for an existing record, an update whose incoming field values all
equal the current values under the value normalization rule returns the
success acknowledgement tagged no changes and performs zero file writes;
when any compared field differs, the update proceeds through the base
update and the result is never the no changes acknowledgement. -/
theorem claim_C2 :
    (∀ (nfkc : String → String) (rows : List ToolRow) (q : String) (upd : PyDict)
        (r : ToolRow) (cur nd : ToolFields),
      resolveToolRow nfkc rows q = some r →
      toolCurrentData r = .ok cur →
      toolNewData upd (toolRowKey r) = .ok nd →
      (toolFieldsAgree cur nd →
        update_by_tools_name nfkc rows q upd = .ok .noChanges ∧
        updWrites (UpdResult.noChanges : UpdResult ToolRow) = 0) ∧
      (¬ toolFieldsAgree cur nd →
        update_by_tools_name nfkc rows q upd =
          .ok (.updated (base_update nfkc toolRowKey toolValidRow rows
            (toolRowKey r) (toolCsvRow nd))) ∧
        updWrites (UpdResult.updated (base_update nfkc toolRowKey toolValidRow rows
          (toolRowKey r) (toolCsvRow nd))) = 1 ∧
        update_by_tools_name nfkc rows q upd ≠ .ok .noChanges)) ∧
    (∀ (nfkc : String → String) (rows : List BabyRow) (q : String) (upd : PyDict)
        (r : BabyRow) (cur nd : BabyFields),
      resolveBabyRow nfkc rows q = some r →
      babyCurrentData r = .ok cur →
      babyNewData upd (babyRowKey r) = .ok nd →
      (babyFieldsAgree cur nd →
        update_by_baby_part_name nfkc rows q upd = .ok .noChanges ∧
        updWrites (UpdResult.noChanges : UpdResult BabyRow) = 0) ∧
      (¬ babyFieldsAgree cur nd →
        update_by_baby_part_name nfkc rows q upd =
          .ok (.updated (base_update nfkc babyRowKey babyValidRow rows
            (babyRowKey r) (babyCsvRow nd))) ∧
        updWrites (UpdResult.updated (base_update nfkc babyRowKey babyValidRow rows
          (babyRowKey r) (babyCsvRow nd))) = 1 ∧
        update_by_baby_part_name nfkc rows q upd ≠ .ok .noChanges)) := by
  constructor
  · intro nfkc rows q upd r cur nd hres hcur hnd
    constructor
    · intro hagree
      have hhc : toolHasChanges cur nd = false := (toolHasChanges_false_iff cur nd).mpr hagree
      exact ⟨by simp [update_by_tools_name, hres, hcur, hnd, hhc], rfl⟩
    · intro hdis
      have hhc : toolHasChanges cur nd = true := by
        cases h : toolHasChanges cur nd
        · exact absurd ((toolHasChanges_false_iff cur nd).mp h) hdis
        · rfl
      refine ⟨by simp [update_by_tools_name, hres, hcur, hnd, hhc], rfl, ?_⟩
      simp [update_by_tools_name, hres, hcur, hnd, hhc]
  · intro nfkc rows q upd r cur nd hres hcur hnd
    constructor
    · intro hagree
      have hhc : babyHasChanges cur nd = false := (babyHasChanges_false_iff cur nd).mpr hagree
      exact ⟨by simp [update_by_baby_part_name, hres, hcur, hnd, hhc], rfl⟩
    · intro hdis
      have hhc : babyHasChanges cur nd = true := by
        cases h : babyHasChanges cur nd
        · exact absurd ((babyHasChanges_false_iff cur nd).mp h) hdis
        · rfl
      refine ⟨by simp [update_by_baby_part_name, hres, hcur, hnd, hhc], rfl, ?_⟩
      simp [update_by_baby_part_name, hres, hcur, hnd, hhc]

/-- Witness for C2: updating concrete records with payloads equal to the
stored values (numbers as parsed numbers, text after trimming) returns
the no changes acknowledgement for both services. -/
theorem claim_C2_witness :
    update_by_tools_name id [sampleTool1] "Widget-A"
        [("tools_name", .vStr "Widget-A"), ("stock_detail", .vStr " alpha widget "),
         ("current_stock", .vStr "5.0"), ("stock_new", .vInt 3), ("stock_old", .vInt 2)] =
      .ok .noChanges ∧
    update_by_baby_part_name id [sampleBaby1] "Cap-3"
        [("baby_parts", .vStr "Cap-3"), ("qty", .vStr "4")] = .ok .noChanges := by
  constructor
  · exact ((claim_C2.1 id [sampleTool1] "Widget-A"
      [("tools_name", .vStr "Widget-A"), ("stock_detail", .vStr " alpha widget "),
       ("current_stock", .vStr "5.0"), ("stock_new", .vInt 3), ("stock_old", .vInt 2)]
      sampleTool1
      { part_name := .vStr "Widget-A", detail_specification := .vStr "alpha widget",
        picture := .vStr "", total := .vInt 5, new := .vInt 3, old := .vInt 2,
        uom := .vStr "Pcs", remark := .vStr "" }
      { part_name := .vStr "Widget-A", detail_specification := .vStr "alpha widget",
        picture := .vStr "", total := .vInt 5, new := .vInt 3, old := .vInt 2,
        uom := .vStr "Pcs", remark := .vStr "" }
      (by decide) (by decide) (by decide)).1 (by decide)).1
  · exact ((claim_C2.2 id [sampleBaby1] "Cap-3"
      [("baby_parts", .vStr "Cap-3"), ("qty", .vStr "4")]
      sampleBaby1
      { baby_parts := .vStr "Cap-3", qty := .vInt 4 }
      { baby_parts := .vStr "Cap-3", qty := .vInt 4 }
      (by decide) (by decide) (by decide)).1 (by decide)).1

/-- A converted tool record carries a key that is non empty after
stripping. -/
theorem toolOutOfRow_key {r : ToolRow} {x : ToolOut}
    (h : toolOutOfRow r = .ok (some x)) : pyStrip x.tools_name ≠ "" := by
  unfold toolOutOfRow at h
  split at h
  · simp at h
  · rename_i hkey
    split at h
    · simp at h
    · split at h
      · simp at h
      · split at h
        · simp at h
        · simp only [Except.ok.injEq, Option.some.injEq] at h
          rw [← h]
          show pyStrip (toolRowKey r) ≠ ""
          unfold toolRowKey
          rw [pyStrip_idem]
          exact hkey

/-- A converted baby part record carries a key that is non empty after
stripping. -/
theorem babyOutOfRow_key {r : BabyRow} {x : BabyOut}
    (h : babyOutOfRow r = .ok (some x)) : pyStrip x.baby_parts ≠ "" := by
  unfold babyOutOfRow at h
  split at h
  · simp at h
  · rename_i hkey
    split at h
    · simp at h
    · simp only [Except.ok.injEq, Option.some.injEq] at h
      rw [← h]
      show pyStrip (babyRowKey r) ≠ ""
      unfold babyRowKey
      rw [pyStrip_idem]
      exact hkey

/-- Every record of a successful tool conversion loop has a non blank
key. -/
theorem toolOutList_key (l : List ToolRow) (out : List ToolOut)
    (h : toolOutList l = .ok out) : ∀ x ∈ out, pyStrip x.tools_name ≠ "" := by
  induction l generalizing out with
  | nil =>
      simp only [toolOutList, Except.ok.injEq] at h
      subst h
      intro x hx
      simp at hx
  | cons r rest ih =>
      rw [toolOutList] at h
      cases ho : toolOutOfRow r with
      | error e => rw [ho] at h; simp at h
      | ok o =>
          rw [ho] at h
          cases hrest : toolOutList rest with
          | error e => rw [hrest] at h; simp at h
          | ok os =>
              rw [hrest] at h
              cases o with
              | none =>
                  simp only [Except.ok.injEq] at h
                  subst h
                  exact ih os hrest
              | some y =>
                  simp only [Except.ok.injEq] at h
                  subst h
                  intro x hx
                  cases List.mem_cons.mp hx with
                  | inl hxy => rw [hxy]; exact toolOutOfRow_key ho
                  | inr hxs => exact ih os hrest x hxs

/-- Every record of a successful baby part conversion loop has a non
blank key. -/
theorem babyOutList_key (l : List BabyRow) (out : List BabyOut)
    (h : babyOutList l = .ok out) : ∀ x ∈ out, pyStrip x.baby_parts ≠ "" := by
  induction l generalizing out with
  | nil =>
      simp only [babyOutList, Except.ok.injEq] at h
      subst h
      intro x hx
      simp at hx
  | cons r rest ih =>
      rw [babyOutList] at h
      cases ho : babyOutOfRow r with
      | error e => rw [ho] at h; simp at h
      | ok o =>
          rw [ho] at h
          cases hrest : babyOutList rest with
          | error e => rw [hrest] at h; simp at h
          | ok os =>
              rw [hrest] at h
              cases o with
              | none =>
                  simp only [Except.ok.injEq] at h
                  subst h
                  exact ih os hrest
              | some y =>
                  simp only [Except.ok.injEq] at h
                  subst h
                  intro x hx
                  cases List.mem_cons.mp hx with
                  | inl hxy => rw [hxy]; exact babyOutOfRow_key ho
                  | inr hxs => exact ih os hrest x hxs

/-- C9: every record returned by the list operation of either service has
a primary key value that is non empty after trimming; rows whose key cell
is missing, NaN, empty or whitespace only are dropped during load and
never reach the output. -/
theorem claim_C9 :
    (∀ (rows : List ToolRow) (out : List ToolOut),
      tool_get_all rows = .ok out → ∀ x ∈ out, pyStrip x.tools_name ≠ "") ∧
    (∀ (rows : List BabyRow) (out : List BabyOut),
      baby_get_all rows = .ok out → ∀ x ∈ out, pyStrip x.baby_parts ≠ "") := by
  constructor
  · intro rows out h
    exact toolOutList_key (rows.filter toolValidRow) out h
  · intro rows out h
    exact babyOutList_key (rows.filter babyValidRow) out h

/-- Witness for C9: a concrete load containing a NaN key, an empty key
and a whitespace only key keeps only the good row, whose key is non
blank. -/
theorem claim_C9_witness : pyStrip "Widget-A" ≠ "" ∧ pyStrip "Cap-3" ≠ "" := by
  constructor
  · exact claim_C9.1
      [sampleTool1, { sampleTool1 with part_name := .vNaN },
       { sampleTool1 with part_name := .vStr "" },
       { sampleTool1 with part_name := .vStr "   " }]
      [{ tools_name := "Widget-A", current_stock := 5, stock_new := 3, stock_old := 2,
         stock_detail := "alpha widget", photo := "", uom := "Pcs", remark := "" }]
      (by decide)
      { tools_name := "Widget-A", current_stock := 5, stock_new := 3, stock_old := 2,
        stock_detail := "alpha widget", photo := "", uom := "Pcs", remark := "" }
      (by decide)
  · exact claim_C9.2
      [sampleBaby1, { baby_parts := .vNone, qty := .vInt 1 }]
      [{ baby_parts := "Cap-3", qty := 4 }]
      (by decide)
      { baby_parts := "Cap-3", qty := 4 }
      (by decide)

/-- C8: on a non empty input list, every record whose key chain is falsy
is skipped without error and without running any conversion, and the
batch result is the base bulk upsert of exactly the normalized remaining
records, which replaces a resolved row in place and appends otherwise. -/
theorem claim_C8 (nfkc : String → String) (rows : List ToolRow) (input : List PyDict)
    (recs : List ToolRow)
    (hne : input ≠ [])
    (hnorm : normalizeToolRecords input = .ok recs) :
    tool_bulk_upsert nfkc rows input =
      .ok (base_bulk_upsert nfkc toolRowKey toolValidRow rows recs) ∧
    (∀ d : PyDict, pyTruthy (toolBulkKey d) = false → normalizeOneTool d = .ok none) := by
  constructor
  · cases input with
    | nil => exact absurd rfl hne
    | cons d rest =>
        simp [tool_bulk_upsert, hnorm]
  · intro d hd
    unfold normalizeOneTool
    simp [hd]

/-- Witness for C8: a concrete batch with one keyless record and one new
record skips the former and appends the latter. -/
theorem claim_C8_witness :
    tool_bulk_upsert id [sampleTool1]
        [[("remark", .vStr "orphan")], [("tools_name", .vStr "Gadget")]] =
      .ok (base_bulk_upsert id toolRowKey toolValidRow [sampleTool1]
        [{ part_name := .vStr "Gadget", brand := .vStr "",
           detail_specification := .vStr "", picture := .vStr "",
           total := .vInt 0, new := .vInt 0, old := .vInt 0,
           uom := .vStr "Pcs", remark := .vStr "" }]) :=
  (claim_C8 id [sampleTool1]
    [[("remark", .vStr "orphan")], [("tools_name", .vStr "Gadget")]]
    [{ part_name := .vStr "Gadget", brand := .vStr "",
       detail_specification := .vStr "", picture := .vStr "",
       total := .vInt 0, new := .vInt 0, old := .vInt 0,
       uom := .vStr "Pcs", remark := .vStr "" }]
    (by decide) (by decide)).1

/-- A pattern found at the head survives lengthening the text. -/
theorem charsStartWith_of_append (s t pat : List Char)
    (h : charsStartWith s pat = true) : charsStartWith (s ++ t) pat = true := by
  induction pat generalizing s with
  | nil => simp [charsStartWith]
  | cons p ps ih =>
      cases s with
      | nil => simp [charsStartWith] at h
      | cons c cs =>
          simp only [charsStartWith, Bool.and_eq_true] at h
          simp only [List.cons_append, charsStartWith, Bool.and_eq_true]
          exact ⟨h.1, ih cs h.2⟩

/-- The empty pattern is contained in every text. -/
theorem charsContain_nil (l : List Char) : charsContain [] l = true := by
  cases l <;> simp [charsContain, charsStartWith, List.isEmpty]

/-- A pattern found in the left part is found in the whole text. -/
theorem charsContain_append_left (a b pat : List Char)
    (h : charsContain pat a = true) : charsContain pat (a ++ b) = true := by
  induction a with
  | nil =>
      cases pat with
      | nil => simp [charsContain_nil]
      | cons p ps => simp [charsContain] at h
  | cons c cs ih =>
      simp only [charsContain, Bool.or_eq_true] at h
      simp only [List.cons_append, charsContain, Bool.or_eq_true]
      rcases h with hs | hc
      · refine Or.inl ?_
        have hw := charsStartWith_of_append (c :: cs) b pat hs
        simpa using hw
      · exact Or.inr (ih hc)

/-- A pattern found in the right part is found in the whole text. -/
theorem charsContain_append_right (a b pat : List Char)
    (h : charsContain pat b = true) : charsContain pat (a ++ b) = true := by
  induction a with
  | nil => simpa using h
  | cons c cs ih =>
      simp only [List.cons_append, charsContain, Bool.or_eq_true]
      exact Or.inr ih

/-- String level wrapper: containment in either part gives containment in
the concatenation. -/
theorem containsSub_append_left (a b pat : String) (h : containsSub a pat = true) :
    containsSub (a ++ b) pat = true :=
  charsContain_append_left a.data b.data pat.data h

/-- String level wrapper for the right part. -/
theorem containsSub_append_right (a b pat : String) (h : containsSub b pat = true) :
    containsSub (a ++ b) pat = true :=
  charsContain_append_right a.data b.data pat.data h

/-- The read-only message advises closing the external application. -/
theorem readOnlyMsg_has_close (path : String) :
    containsSub (readOnlyMsg path) "another application" = true := by
  unfold readOnlyMsg
  apply containsSub_append_left
  apply containsSub_append_right
  decide

/-- The read-only message mentions the read-only state. -/
theorem readOnlyMsg_has_readonly (path : String) :
    containsSub (readOnlyMsg path) "read-only" = true := by
  unfold readOnlyMsg
  apply containsSub_append_left
  apply containsSub_append_left
  apply containsSub_append_left
  apply containsSub_append_left
  apply containsSub_append_right
  decide

/-- The lock message advises closing the external application. -/
theorem lockedMsg_has_close (path : String) :
    containsSub (lockedMsg path) "another application" = true := by
  unfold lockedMsg
  apply containsSub_append_left
  apply containsSub_append_left
  apply containsSub_append_left
  apply containsSub_append_right
  decide

/-- The lock message advises checking the read-only attribute. -/
theorem lockedMsg_has_readonly (path : String) :
    containsSub (lockedMsg path) "read-only" = true := by
  unfold lockedMsg
  apply containsSub_append_left
  apply containsSub_append_left
  apply containsSub_append_right
  decide

/-- The lock message advises checking the antivirus. -/
theorem lockedMsg_has_antivirus (path : String) :
    containsSub (lockedMsg path) "antivirus" = true := by
  unfold lockedMsg
  apply containsSub_append_right
  decide

set_option maxRecDepth 4096 in
/-- Counterexample to C3 as stated: when the existing backing file is
read-only, the save fails with PermissionDenied before any write and the
file is unchanged, but the message of this branch does not carry the
antivirus guidance that the claim requires of the failure message. -/
theorem claim_C3_counterexample :
    save_dataframe_guarded "stock_detail.csv" "tool"
        { fexists := true, writable := false, openErr := none, writeErr := none,
          content := "old" } "new" =
      (some (.permissionDenied (readOnlyMsg "stock_detail.csv")),
       { fexists := true, writable := false, openErr := none, writeErr := none,
         content := "old" }) ∧
    containsSub (readOnlyMsg "stock_detail.csv") "antivirus" = false := by
  decide

/-- C3 amended: when the backing file exists, a read-only file fails fast
with PermissionDenied whose message advises closing the external
application and mentions the read-only state (but not the antivirus), and
a file whose probe open raises errno 13 (the exclusive hold case) fails
with PermissionDenied carrying the full guidance including the antivirus;
in both cases the failure happens before the write, so the file content
is unchanged. -/
theorem claim_C3_amended (path entity new : String) (fs : FileState)
    (hex : fs.fexists = true) :
    (fs.writable = false →
      save_dataframe_guarded path entity fs new =
        (some (.permissionDenied (readOnlyMsg path)), fs) ∧
      containsSub (readOnlyMsg path) "another application" = true ∧
      containsSub (readOnlyMsg path) "read-only" = true) ∧
    (∀ t, fs.writable = true → fs.openErr = some (13, t) →
      save_dataframe_guarded path entity fs new =
        (some (.permissionDenied (lockedMsg path)), fs) ∧
      containsSub (lockedMsg path) "another application" = true ∧
      containsSub (lockedMsg path) "read-only" = true ∧
      containsSub (lockedMsg path) "antivirus" = true) := by
  constructor
  · intro hw
    refine ⟨?_, readOnlyMsg_has_close path, readOnlyMsg_has_readonly path⟩
    simp [save_dataframe_guarded, hex, hw]
  · intro t hw hop
    refine ⟨?_, lockedMsg_has_close path, lockedMsg_has_readonly path,
      lockedMsg_has_antivirus path⟩
    simp [save_dataframe_guarded, hex, hw, hop]

/-- Witness for C3 at a concrete locked file: the probe open raising
errno 13 produces the PermissionDenied with the full guidance and leaves
the content unchanged. -/
theorem claim_C3_witness :
    save_dataframe_guarded "baby_part.csv" "baby_part"
        { fexists := true, writable := true, openErr := some (13, "[Errno 13]"),
          writeErr := none, content := "old" } "new" =
      (some (.permissionDenied (lockedMsg "baby_part.csv")),
       { fexists := true, writable := true, openErr := some (13, "[Errno 13]"),
         writeErr := none, content := "old" }) ∧
    containsSub (lockedMsg "baby_part.csv") "antivirus" = true := by
  have h := (claim_C3_amended "baby_part.csv" "baby_part" "new"
    { fexists := true, writable := true, openErr := some (13, "[Errno 13]"),
      writeErr := none, content := "old" } (by decide)).2 "[Errno 13]" (by decide) (by decide)
  exact ⟨h.1, h.2.2.2⟩
